import Mathlib

/-!
Verification of the Grow-A-Garden stock tracker bot (`src/index.js`).

The repository ships two variants of the bot in one packed file; the enhanced
variant (the first `gagstockCommand` definition, with do-not-disturb support
and the silent stock-clearing system) is the one embedded here.  The embedding
below is a shallow model of the per-user session manager:

* `formatValue`, `getNextScheduledTime`, `checkDivineItems`, `processSection`
  and the body of `fetchAndNotify` are translated directly from the source.
* JavaScript `Map`s keyed by user id are modelled as functions
  `UserId → Option _` / `UserId → Bool`.
* Outbound messages are modelled by the `Msg` inductive (message identity and
  the structured stock content matter to the spec; the surrounding template
  text, typing indicators and the personalised greeting do not and are elided).
* The weather payload, restock countdowns and the wall clock are inputs of the
  cycle in the source (fetched/computed each run); they are passed as
  parameters here.
* `Number(quantity)` is modelled as `Nat` (the spec only discusses
  non-negative integer quantities), and `JSON.stringify` string escaping is
  elided (item names are encoded verbatim).
* `fetchAndNotify`'s remote fetch either yields stock data or throws; this is
  modelled by an `Option StockData` argument (`none` = the fetch threw).
* `setTimeout` timers are modelled by session presence: the self-rescheduling
  chain exists exactly while the session entry exists.  The delayed cache
  clear armed by `sendStockClearingAlert` (which sends no message — the
  source comments it as "Silent cache clearing") happens 30s later and is
  outside the per-cycle state transition modelled here.
-/

namespace GagBot

/-- JS `String.prototype.startsWith`-style check on char lists:
`seqStarts needle hay` is true iff `hay` begins with `needle`. -/
def seqStarts : List Char → List Char → Bool
  | [], _ => true
  | _ :: _, [] => false
  | a :: as, b :: bs => a == b && seqStarts as bs

/-- JS `String.prototype.includes` on char lists: `needle` occurs
contiguously somewhere in `hay` (the empty needle always occurs). -/
def seqContains (needle : List Char) : List Char → Bool
  | [] => needle.isEmpty
  | c :: rest => seqStarts needle (c :: rest) || seqContains needle rest

/-- JS `hay.includes(needle)`. -/
def strIncludes (hay needle : String) : Bool :=
  seqContains needle.toList hay.toList

/-- JS `String.prototype.toLowerCase` (restricted to per-character
`Char.toLower`), written on the character-list representation. -/
def lowerStr (s : String) : String :=
  String.mk (s.toList.map Char.toLower)

/-- One stock entry: `{ name: i.name, value: Number(i.quantity) }`. -/
structure Item where
  name : String
  value : Nat
deriving DecidableEq, Repr

/-- The transformed fetch result `stockData` built in `fetchAndNotify`. -/
structure StockData where
  gearStock : List Item
  seedsStock : List Item
  eggStock : List Item
  cosmeticsStock : List Item
  honeyStock : List Item
deriving DecidableEq, Repr

/-- The countdown strings produced by `getNextRestocks()` (time-derived
presentation data, passed as a parameter to the cycle). -/
structure Restocks where
  gear : String
  seed : String
  egg : String
  cosmetics : String
  honey : String
deriving DecidableEq, Repr

/-- True when `i.name.toLowerCase().includes(f)` for some filter `f` (filters are
lowercased at parse time in the command handler). -/
def matchesFilters (filters : List String) (name : String) : Bool :=
  filters.any (fun f => strIncludes (lowerStr name) f)

/-- Rounding for `formatValue`: `toFixed(1)` is modelled as exact round-half-up of
`num / den` to tenths (the binary-float tie cases of JS `toFixed` are not
distinguished by the spec). -/
def toFixed1 (num den : Nat) : Nat :=
  (num * 10 + den / 2) / den

/-- Renders a tenths count as a decimal string, e.g. `15 ↦ "1.5"`. -/
def oneDecimal (tenths : Nat) : String :=
  toString (tenths / 10) ++ "." ++ toString (tenths % 10)

/-- Translation of `function formatValue(val)` from `src/index.js`. -/
def formatValue (val : Nat) : String :=
  if val ≥ 1000000 then "x" ++ oneDecimal (toFixed1 val 1000000) ++ "M"
  else if val ≥ 1000 then "x" ++ oneDecimal (toFixed1 val 1000) ++ "K"
  else "x" ++ toString val

/-- Minutes-of-hour of a timestamp in milliseconds (`Date.prototype.getMinutes`). -/
def jsMinutes (t : Nat) : Nat :=
  t / 60000 % 60

/-- Translation of `function getNextScheduledTime(startTime)` from `src/index.js`, on
timestamps in milliseconds.  `setMinutes(next5, 30, 0)` (with JS rollover of
minute 60 into the next hour) is `hourStart + next5 * 60000 + 30000`. -/
def getNextScheduledTime (t : Nat) : Nat :=
  let min := jsMinutes t
  let next5 := min / 5 * 5 + 5
  let base := t - t % 3600000 + next5 * 60000 + 30000
  if base ≤ t then base + 5 * 60000 else base

/-- The timer delay computed in `runSchedule`: `Math.max(nextTime - now, 1000)`. -/
def runScheduleWait (t : Nat) : Nat :=
  max (getNextScheduledTime t - t) 1000

/-- Translation of `const DIVINE_ITEMS = [...]` from `src/index.js`. -/
def DIVINE_ITEMS : List String :=
  ["beanstalk", "basic sprinkler", "master sprinkler", "godly sprinkler", "ember lily"]

/-- Translation of `function checkDivineItems(stockData)` from `src/index.js`. -/
def checkDivineItems (sd : StockData) : List Item :=
  (sd.gearStock ++ sd.seedsStock ++ sd.eggStock ++ sd.cosmeticsStock ++ sd.honeyStock).filter
    (fun item =>
      DIVINE_ITEMS.any (fun divine => strIncludes (lowerStr item.name) (lowerStr divine))
        && decide (0 < item.value))

/-- One rendered stock box of the notification (label line, the item lines
produced by `formatList`, and the restock countdown line). -/
structure SectionData where
  label : String
  items : List Item
  restock : String
deriving DecidableEq, Repr

/-- The five section labels of the enhanced notification template. -/
def gearLabel : String := "🛠️ 𝗚𝗲𝗮𝗿 & 𝗧𝗼𝗼𝗹𝘀"

def seedLabel : String := "🌱 𝗦𝗲𝗲𝗱𝘀 & 𝗣𝗹𝗮𝗻𝘁𝘀"

def eggLabel : String := "🥚 𝗘𝗴𝗴𝘀 & 𝗣𝗲𝘁𝘀"

def cosmeticsLabel : String := "🎨 𝗖𝗼𝘀𝗺𝗲𝘁𝗶𝗰 𝗜𝘁𝗲𝗺𝘀"

def honeyLabel : String := "🍯 𝗛𝗼𝗻𝗲𝘆 𝗣𝗿𝗼𝗱𝘂𝗰𝘁𝘀"

/-- The `filtered` list computed at the top of `processSection`:
`isFilterable && filters.length > 0 ? items.filter(...) : items`. -/
def processFiltered (filters : List String) (items : List Item)
    (isFilterable : Bool) : List Item :=
  if isFilterable && !filters.isEmpty then
    items.filter (fun i => matchesFilters filters i.name)
  else items

/-- Translation of `const processSection = (label, items, restock, isFilterable) => ...` from
`fetchAndNotify`: returns the rendered section (empty or one box) and the
updated `matchedItems` flag (the source mutates the `matchedItems` closure
variable; here the flag is threaded explicitly). -/
def processSection (filters : List String) (matched : Bool) (label : String)
    (items : List Item) (restock : String) (isFilterable : Bool) :
    List SectionData × Bool :=
  let filtered := processFiltered filters items isFilterable
  if filtered.isEmpty then ([], matched)
  else ([⟨label, filtered, restock⟩], matched || isFilterable)

/-- The `filteredContent` / `matchedItems` computation of `fetchAndNotify`
(the five `processSection` calls, the `if (filters.length > 0)` split and the
`if (matchedItems)` gate on the three secondary categories). -/
def buildContent (filters : List String) (sd : StockData) (r : Restocks) :
    List SectionData × Bool :=
  if filters.isEmpty then
    let g := processSection filters false gearLabel sd.gearStock r.gear false
    let s := processSection filters g.2 seedLabel sd.seedsStock r.seed false
    let e := processSection filters s.2 eggLabel sd.eggStock r.egg false
    let c := processSection filters e.2 cosmeticsLabel sd.cosmeticsStock r.cosmetics false
    let h := processSection filters c.2 honeyLabel sd.honeyStock r.honey false
    (g.1 ++ s.1 ++ e.1 ++ c.1 ++ h.1, true)
  else
    let g := processSection filters false gearLabel sd.gearStock r.gear true
    let s := processSection filters g.2 seedLabel sd.seedsStock r.seed true
    if s.2 then
      let e := processSection filters s.2 eggLabel sd.eggStock r.egg false
      let c := processSection filters e.2 cosmeticsLabel sd.cosmeticsStock r.cosmetics false
      let h := processSection filters c.2 honeyLabel sd.honeyStock r.honey false
      (g.1 ++ s.1 ++ e.1 ++ c.1 ++ h.1, h.2)
    else (g.1 ++ s.1, s.2)

/-- JSON encoding of one transformed item (string escaping elided). -/
def jsonItem (i : Item) : String :=
  "\x7b\"name\":\"" ++ i.name ++ "\",\"value\":" ++ toString i.value ++ "\x7d"

/-- JSON encoding of an item list. -/
def jsonItems (l : List Item) : String :=
  "[" ++ String.intercalate "," (l.map jsonItem) ++ "]"

/-- Translation of `JSON.stringify({ gearStock: stockData.gearStock, seedsStock:
stockData.seedsStock })` — the notification fingerprint (`currentKey`). -/
def currentKey (sd : StockData) : String :=
  "\x7b\"gearStock\":" ++ jsonItems sd.gearStock
    ++ ",\"seedsStock\":" ++ jsonItems sd.seedsStock ++ "\x7d"

/-- User identifiers (`senderId`). -/
def UserId : Type := String

instance : DecidableEq UserId := fun a b => String.decEq a b

/-- Session state stored in `activeSessions` by `runSchedule`.  The
`timeout` timer handle is modelled by the presence of the entry itself. -/
structure Session where
  filters : List String
  lastActivity : Nat
  startTime : Nat
deriving DecidableEq, Repr

/-- The process-wide maps of the enhanced bot that the tracked commands
touch (`activeSessions`, `lastSentCache`, `stockClearingAlerts`,
`userDoNotDisturb`), each modelled as a total lookup function. -/
structure BotState where
  activeSessions : UserId → Option Session
  lastSentCache : UserId → Option String
  stockClearingAlerts : UserId → Bool
  userDoNotDisturb : UserId → Bool

/-- The outbound messages the modelled code paths can send.  Template texts
are identified by constructor; the stock notification carries its structured
content. -/
inductive Msg where
  /-- The main stock update (with the refresh quick replies). -/
  | stockUpdate (content : List SectionData)
  /-- The developer signature image sent right after a stock update. -/
  | signatureImage
  /-- The divine-items alert. -/
  | divineAlert (items : List Item)
  /-- The "Enhanced Tracking Activated" message of `gagstock on`. -/
  | startMsg (filters : List String)
  /-- The "Session Already Active" rejection. -/
  | alreadyActive
  /-- The "Tracking Stopped" confirmation of `gagstock off`. -/
  | stopMsg
  /-- The "No Active Session" reply of `gagstock off`. -/
  | noSession
  /-- The usage guide for unrecognized actions. -/
  | usage
  /-- The "Connection Error" message for a failed initial fetch. -/
  | fetchError
deriving DecidableEq, Repr

/-- Result of one `fetchAndNotify` run: the new global state, the messages
sent to the user (in order), and the boolean the function returns. -/
structure CycleResult where
  state : BotState
  msgs : List Msg
  notified : Bool

/-- Pointwise update of a user-keyed map. -/
def setUser {α : Type} (f : UserId → α) (uid : UserId) (v : α) : UserId → α :=
  fun u => if u = uid then v else f u

/-- Truthiness of `lastSent && lastSent !== currentKey`: the cached fingerprint exists and
differs from the new one (a cached key is never the empty string, so JS
truthiness of `lastSent` is existence). -/
def staleKey (lastSent : Option String) (key : String) : Bool :=
  match lastSent with
  | some k => k != key
  | none => false

/-- Translation of `async function fetchAndNotify(alwaysSend)` from the enhanced
`gagstockCommand`.  `fetch` is the outcome of the two awaited remote calls
(`none` = a fetch threw, landing in the `catch` that returns `false`).
`sendStockClearingAlert` sends no message (it only arms a delayed, silent
cache clear), so the only immediate state change on that path is the
`stockClearingAlerts` flag. -/
def fetchAndNotify (st : BotState) (uid : UserId) (filters : List String)
    (alwaysSend : Bool) (fetch : Option StockData) (r : Restocks) : CycleResult :=
  match fetch with
  | none => ⟨st, [], false⟩
  | some sd =>
    let content := (buildContent filters sd r).1
    let matchedItems := (buildContent filters sd r).2
    let key := currentKey sd
    let lastSent := st.lastSentCache uid
    if st.userDoNotDisturb uid = true ∧ alwaysSend = false then ⟨st, [], false⟩
    else
      let st1 : BotState :=
        if alwaysSend = false ∧ staleKey lastSent key = true
            ∧ st.stockClearingAlerts uid = false then
          { st with stockClearingAlerts := setUser st.stockClearingAlerts uid true }
        else st
      if alwaysSend = false ∧ lastSent = some key then ⟨st1, [], false⟩
      else if filters ≠ [] ∧ matchedItems = false then ⟨st1, [], false⟩
      else
        let divine := checkDivineItems sd
        let divMsgs : List Msg :=
          if divine ≠ [] ∧ st1.userDoNotDisturb uid = false then [Msg.divineAlert divine]
          else []
        let st2 : BotState :=
          { st1 with lastSentCache := setUser st1.lastSentCache uid (some key) }
        ⟨st2, divMsgs ++ [Msg.stockUpdate content, Msg.signatureImage], true⟩

/-- Translation of `gagstockCommand.execute` (enhanced variant), for a parsed action word
and filter list, assuming `botIsOnline` (the rest-mode gate is orthogonal to
every tracked property).  `fetch` is the outcome the initial
`fetchAndNotify(true)` would observe, `now` the wall clock used for the
session timestamps.  On a successful first fetch `runSchedule()` stores the
session (arming the timer chain); otherwise the error message is sent and the
session entry deleted. -/
def gagstockExecute (st : BotState) (uid : UserId) (action : String)
    (filters : List String) (fetch : Option StockData) (r : Restocks)
    (now : Nat) : BotState × List Msg :=
  if action = "off" then
    match st.activeSessions uid with
    | some _ =>
      ({ st with
          activeSessions := setUser st.activeSessions uid none,
          lastSentCache := setUser st.lastSentCache uid none,
          stockClearingAlerts := setUser st.stockClearingAlerts uid false },
        [Msg.stopMsg])
    | none => (st, [Msg.noSession])
  else if action ≠ "on" then (st, [Msg.usage])
  else if (st.activeSessions uid).isSome then (st, [Msg.alreadyActive])
  else
    let first := fetchAndNotify st uid filters true fetch r
    if first.notified then
      ({ first.state with
          activeSessions :=
            setUser first.state.activeSessions uid (some ⟨filters, now, now⟩) },
        Msg.startMsg filters :: first.msgs)
    else
      ({ first.state with
          activeSessions := setUser first.state.activeSessions uid none },
        Msg.startMsg filters :: (first.msgs ++ [Msg.fetchError]))

/-! ### Supporting lemmas -/

/-- The items of the sections carrying a given label within rendered content. -/
def sectionItems : List SectionData → String → List Item
  | [], _ => []
  | s :: rest, L => (if s.label = L then s.items else []) ++ sectionItems rest L

lemma sectionItems_append (A B : List SectionData) (L : String) :
    sectionItems (A ++ B) L = sectionItems A L ++ sectionItems B L := by
  induction A with
  | nil => rfl
  | cons s rest ih => simp [sectionItems, ih, List.append_assoc]

lemma mem_sectionItems_processSection (filters : List String) (m : Bool)
    (label : String) (items : List Item) (rk : String) (isF : Bool)
    (L : String) (i : Item) :
    i ∈ sectionItems (processSection filters m label items rk isF).1 L ↔
      label = L ∧ i ∈ processFiltered filters items isF := by
  unfold processSection
  by_cases h : (processFiltered filters items isF).isEmpty
  · have h0 : processFiltered filters items isF = [] := List.isEmpty_iff.mp h
    simp [h, sectionItems, h0]
  · have h' : (processFiltered filters items isF).isEmpty = false := by
      simpa using h
    by_cases hL : label = L <;> simp [h', sectionItems, hL]

lemma processSection_snd (filters : List String) (m : Bool) (label : String)
    (items : List Item) (rk : String) (isF : Bool) :
    (processSection filters m label items rk isF).2 =
      (m || (isF && !(processFiltered filters items isF).isEmpty)) := by
  unfold processSection
  by_cases h : (processFiltered filters items isF).isEmpty <;> simp [h]

lemma processFiltered_true (filters : List String) (items : List Item)
    (hfe : filters.isEmpty = false) :
    processFiltered filters items true =
      items.filter (fun i => matchesFilters filters i.name) := by
  simp [processFiltered, hfe]

lemma processFiltered_notF (filters : List String) (items : List Item) :
    processFiltered filters items false = items := by
  simp [processFiltered]

lemma buildContent_snd_pos (filters : List String) (sd : StockData) (r : Restocks)
    (hfe : filters.isEmpty = false) :
    (buildContent filters sd r).2 =
      (!(sd.gearStock.filter (fun i => matchesFilters filters i.name)).isEmpty
        || !(sd.seedsStock.filter (fun i => matchesFilters filters i.name)).isEmpty) := by
  simp [buildContent, hfe, processSection_snd, processFiltered_true _ _ hfe,
    processFiltered_notF]
  split <;> rfl

lemma mem_buildContent_fst (filters : List String) (sd : StockData) (r : Restocks)
    (hfe : filters.isEmpty = false) (L : String) (i : Item) :
    i ∈ sectionItems (buildContent filters sd r).1 L ↔
      ((gearLabel = L ∧ i ∈ sd.gearStock.filter (fun j => matchesFilters filters j.name))
        ∨ (seedLabel = L ∧ i ∈ sd.seedsStock.filter (fun j => matchesFilters filters j.name))
        ∨ ((buildContent filters sd r).2 = true
            ∧ ((eggLabel = L ∧ i ∈ sd.eggStock)
               ∨ (cosmeticsLabel = L ∧ i ∈ sd.cosmeticsStock)
               ∨ (honeyLabel = L ∧ i ∈ sd.honeyStock)))) := by
  rw [buildContent_snd_pos _ _ _ hfe]
  simp only [buildContent, hfe, Bool.false_eq_true, if_false]
  by_cases hm : ((!(sd.gearStock.filter (fun j => matchesFilters filters j.name)).isEmpty
      || !(sd.seedsStock.filter (fun j => matchesFilters filters j.name)).isEmpty) = true)
  · simp only [processSection_snd, processFiltered_true _ _ hfe, processFiltered_notF,
      Bool.false_or, Bool.true_and, Bool.and_false, Bool.or_false, hm, if_true,
      sectionItems_append, List.mem_append, mem_sectionItems_processSection]
    simp only [sectionItems_append, List.mem_append, mem_sectionItems_processSection,
      processFiltered_true _ _ hfe, processFiltered_notF, List.mem_filter]
    simp [hm]
    tauto
  · simp only [processSection_snd, processFiltered_true _ _ hfe, processFiltered_notF,
      Bool.false_or, Bool.true_and, Bool.and_false, Bool.or_false, hm, if_false,
      sectionItems_append, List.mem_append, mem_sectionItems_processSection]
    simp only [Bool.false_eq_true, if_false, sectionItems_append, List.mem_append,
      mem_sectionItems_processSection, processFiltered_true _ _ hfe, List.mem_filter,
      false_and, or_false]

lemma buildContent_snd_nil (sd : StockData) (r : Restocks) :
    (buildContent [] sd r).2 = true := by
  simp [buildContent]

lemma buildContent_snd_iff (filters : List String) (sd : StockData) (r : Restocks)
    (hfe : filters.isEmpty = false) :
    (buildContent filters sd r).2 = true ↔
      ∃ i : Item, (i ∈ sd.gearStock ∨ i ∈ sd.seedsStock)
        ∧ matchesFilters filters i.name = true := by
  rw [buildContent_snd_pos _ _ _ hfe]
  simp only [Bool.or_eq_true, Bool.not_eq_true', List.isEmpty_eq_false, ne_eq,
    List.filter_eq_nil_iff, not_forall]
  constructor
  · rintro (⟨a, ha, hpa⟩ | ⟨a, ha, hpa⟩)
    · exact ⟨a, Or.inl ha, by simpa using hpa⟩
    · exact ⟨a, Or.inr ha, by simpa using hpa⟩
  · rintro ⟨a, (ha | ha), hpa⟩
    · exact Or.inl ⟨a, ha, by simpa using hpa⟩
    · exact Or.inr ⟨a, ha, by simpa using hpa⟩

lemma isEmpty_false_of_ne (filters : List String) (hf : filters ≠ []) :
    filters.isEmpty = false := by
  cases filters with
  | nil => exact absurd rfl hf
  | cons a l => rfl

lemma fetchAndNotify_suppressed (st : BotState) (uid : UserId)
    (filters : List String) (sd : StockData) (r : Restocks) (aS : Bool)
    (h : (st.userDoNotDisturb uid = true ∧ aS = false)
      ∨ (aS = false ∧ st.lastSentCache uid = some (currentKey sd))
      ∨ (filters ≠ [] ∧ (buildContent filters sd r).2 = false)) :
    (fetchAndNotify st uid filters aS (some sd) r).msgs = []
      ∧ (fetchAndNotify st uid filters aS (some sd) r).notified = false := by
  by_cases h0 : (st.userDoNotDisturb uid = true ∧ aS = false)
  · constructor <;> simp [fetchAndNotify, h0]
  · by_cases h1 : (aS = false ∧ st.lastSentCache uid = some (currentKey sd))
    · constructor <;>
        simp [fetchAndNotify, h0, h1, apply_ite CycleResult.msgs,
          apply_ite CycleResult.notified]
    · by_cases h2 : (filters ≠ [] ∧ (buildContent filters sd r).2 = false)
      · constructor <;>
          simp [fetchAndNotify, h0, h1, h2, apply_ite CycleResult.msgs,
            apply_ite CycleResult.notified]
      · rcases h with h | h | h
        · exact absurd h h0
        · exact absurd h h1
        · exact absurd h h2

lemma fetchAndNotify_send_shape (st : BotState) (uid : UserId)
    (filters : List String) (sd : StockData) (r : Restocks) (aS : Bool)
    (h0 : ¬(st.userDoNotDisturb uid = true ∧ aS = false))
    (h1 : ¬(aS = false ∧ st.lastSentCache uid = some (currentKey sd)))
    (h2 : ¬(filters ≠ [] ∧ (buildContent filters sd r).2 = false)) :
    (fetchAndNotify st uid filters aS (some sd) r).notified = true
  ∧ (fetchAndNotify st uid filters aS (some sd) r).state.lastSentCache uid
      = some (currentKey sd)
  ∧ Msg.stockUpdate (buildContent filters sd r).1
      ∈ (fetchAndNotify st uid filters aS (some sd) r).msgs := by
  refine ⟨?_, ?_, ?_⟩ <;> simp [fetchAndNotify, h0, h1, h2, setUser]

lemma execute_off_none (st : BotState) (uid : UserId) (filters : List String)
    (fetch : Option StockData) (r : Restocks) (now : Nat)
    (hn : st.activeSessions uid = none) :
    gagstockExecute st uid "off" filters fetch r now = (st, [Msg.noSession]) := by
  simp [gagstockExecute, hn]

lemma execute_off_clears (st : BotState) (uid : UserId) (filters : List String)
    (fetch : Option StockData) (r : Restocks) (now : Nat) :
    (gagstockExecute st uid "off" filters fetch r now).1.activeSessions uid = none := by
  cases hs : st.activeSessions uid with
  | none => simp [gagstockExecute, hs]
  | some s => simp [gagstockExecute, hs, setUser]

lemma getNextScheduledTime_closed (t : Nat) :
    getNextScheduledTime t =
      t - t % 3600000 + (t / 60000 % 60 / 5 * 5 + 5) * 60000 + 30000 := by
  have h10 : t / 60000 / 60 = t / 3600000 := by
    rw [Nat.div_div_eq_div_mul]
  have h1 := Nat.div_add_mod t 60000
  have h2 := Nat.div_add_mod t 3600000
  have h3 := Nat.div_add_mod (t / 60000) 60
  have h4 := Nat.div_add_mod (t / 60000 % 60) 5
  have h5 : t % 60000 < 60000 := Nat.mod_lt _ (by norm_num)
  have h6 : t / 60000 % 60 < 60 := Nat.mod_lt _ (by norm_num)
  have h7 : t % 3600000 < 3600000 := Nat.mod_lt _ (by norm_num)
  have h8 : t / 60000 % 60 % 5 < 5 := Nat.mod_lt _ (by norm_num)
  have hno : ¬(t - t % 3600000 + (t / 60000 % 60 / 5 * 5 + 5) * 60000 + 30000 ≤ t) := by
    omega
  simp only [getNextScheduledTime, jsMinutes]
  rw [if_neg hno]

/-! ### Concrete fixtures used by witnesses and counterexamples -/

/-- Empty restock countdowns (their text is irrelevant to every property). -/
def restocks0 : Restocks := ⟨"", "", "", "", ""⟩

/-- The pristine global state: no sessions, no cache, no flags. -/
def botState0 : BotState := ⟨fun _ => none, fun _ => none, fun _ => false, fun _ => false⟩

/-- A fetch result whose gear/seed names match no "sunflower" filter. -/
def sdNoMatch : StockData := ⟨[⟨"Trowel", 5⟩], [⟨"Carrot", 3⟩], [], [], []⟩

/-- Variant of `sdNoMatch` with a different egg category (gear and seed unchanged). -/
def sdEggVariant : StockData :=
  ⟨[⟨"Trowel", 5⟩], [⟨"Carrot", 3⟩], [⟨"Common Egg", 7⟩], [], []⟩

/-- A fetch result containing a divine item. -/
def sdDivine : StockData := ⟨[⟨"Beanstalk", 1⟩], [], [], [], []⟩

/-- A state whose fingerprint cache for user "u" holds `currentKey sdNoMatch`. -/
def botStateCached : BotState :=
  ⟨fun _ => none, fun _ => some (currentKey sdNoMatch), fun _ => false, fun _ => false⟩

/-- A state with do-not-disturb enabled for every user. -/
def botStateDnd : BotState := ⟨fun _ => none, fun _ => none, fun _ => false, fun _ => true⟩

/-- A session fixture. -/
def sessionW : Session := ⟨[], 0, 0⟩

/-- A state with an active session for every user. -/
def botStateActive : BotState :=
  ⟨fun _ => some sessionW, fun _ => none, fun _ => false, fun _ => false⟩

/-! ### Claim theorems -/

/-- C1: a cycle with `alwaysSend = false` whose computed fingerprint equals
the cached one sends nothing and returns "not sent"; and a cycle of a session
with non-empty filters matching no gear/seed item sends nothing and returns
"not sent" for either value of `alwaysSend` — in particular even on the very
first fetch after the start command (which runs with `alwaysSend = true`). -/
theorem dedup_suppression_c1 (st : BotState) (uid : UserId)
    (filters : List String) (sd : StockData) (r : Restocks) :
    (st.lastSentCache uid = some (currentKey sd) →
      (fetchAndNotify st uid filters false (some sd) r).msgs = []
        ∧ (fetchAndNotify st uid filters false (some sd) r).notified = false)
  ∧ (filters ≠ [] →
      (∀ i : Item, (i ∈ sd.gearStock ∨ i ∈ sd.seedsStock) →
        matchesFilters filters i.name = false) →
      ∀ aS : Bool,
        (fetchAndNotify st uid filters aS (some sd) r).msgs = []
          ∧ (fetchAndNotify st uid filters aS (some sd) r).notified = false) := by
  constructor
  · intro hc
    exact fetchAndNotify_suppressed st uid filters sd r false (Or.inr (Or.inl ⟨rfl, hc⟩))
  · intro hf hno aS
    have hm : (buildContent filters sd r).2 = false := by
      cases hb : (buildContent filters sd r).2 with
      | false => rfl
      | true =>
        rcases (buildContent_snd_iff filters sd r
            (isEmpty_false_of_ne filters hf)).mp hb with ⟨i, hi, hpi⟩
        rw [hno i hi] at hpi
        simp at hpi
    exact fetchAndNotify_suppressed st uid filters sd r aS (Or.inr (Or.inr ⟨hf, hm⟩))

/-- Witness for C1 at concrete inputs: a cached-fingerprint hit with no
filters, and a first fetch with an unmatched "sunflower" filter. -/
theorem dedup_suppression_c1_witness :
    (botStateCached.lastSentCache "u" = some (currentKey sdNoMatch)
      ∧ (fetchAndNotify botStateCached "u" [] false (some sdNoMatch) restocks0).msgs = []
      ∧ (fetchAndNotify botStateCached "u" [] false (some sdNoMatch) restocks0).notified = false)
  ∧ ((["sunflower"] : List String) ≠ []
      ∧ (fetchAndNotify botState0 "u" ["sunflower"] true (some sdNoMatch) restocks0).msgs = []
      ∧ (fetchAndNotify botState0 "u" ["sunflower"] true (some sdNoMatch) restocks0).notified = false) := by
  have h1 := (dedup_suppression_c1 botStateCached "u" [] sdNoMatch restocks0).1 rfl
  have h2 := (dedup_suppression_c1 botState0 "u" ["sunflower"] sdNoMatch restocks0).2
    (by decide)
    (by
      intro i hi
      rcases hi with hv | hv <;> simp [sdNoMatch] at hv <;> subst hv <;> decide)
    true
  exact ⟨⟨rfl, h1.1, h1.2⟩, ⟨by decide, h2.1, h2.2⟩⟩

/-- C2 as stated is false: an `alwaysSend = true` cycle with non-empty,
unmatched filters sends no message at all ("gagstock on Sunflower" against
stock without a sunflower: the initial always-send fetch returns `false`). -/
theorem alwaysSend_c2_counterexample :
    (fetchAndNotify botState0 "u" ["sunflower"] true (some sdNoMatch) restocks0).msgs = []
  ∧ (fetchAndNotify botState0 "u" ["sunflower"] true (some sdNoMatch) restocks0).notified
      = false := by
  constructor <;> rfl

/-- C2 amended: an `alwaysSend = true` cycle ignores the cached fingerprint
and sends the notification (updating the cache) provided filters are empty or
some gear/seed item matched; with non-empty unmatched filters even an
always-send cycle sends nothing and returns "not sent". -/
theorem alwaysSend_c2_amended (st : BotState) (uid : UserId)
    (filters : List String) (sd : StockData) (r : Restocks) :
    ((filters = [] ∨ (buildContent filters sd r).2 = true) →
      (fetchAndNotify st uid filters true (some sd) r).notified = true
      ∧ (fetchAndNotify st uid filters true (some sd) r).state.lastSentCache uid
          = some (currentKey sd)
      ∧ Msg.stockUpdate (buildContent filters sd r).1
          ∈ (fetchAndNotify st uid filters true (some sd) r).msgs)
  ∧ ((filters ≠ [] ∧ (buildContent filters sd r).2 = false) →
      (fetchAndNotify st uid filters true (some sd) r).msgs = []
      ∧ (fetchAndNotify st uid filters true (some sd) r).notified = false) := by
  constructor
  · intro hm
    apply fetchAndNotify_send_shape
    · rintro ⟨-, hc⟩; simp at hc
    · rintro ⟨hc, -⟩; simp at hc
    · rintro ⟨hf, hmf⟩
      rcases hm with h | h
      · exact hf h
      · rw [h] at hmf; simp at hmf
  · intro h
    exact fetchAndNotify_suppressed st uid filters sd r true (Or.inr (Or.inr h))

/-- Witness for the amended C2: an unfiltered always-send cycle notifies and
updates the cache. -/
theorem alwaysSend_c2_amended_witness :
    (fetchAndNotify botState0 "u" [] true (some sdNoMatch) restocks0).notified = true
  ∧ (fetchAndNotify botState0 "u" [] true (some sdNoMatch) restocks0).state.lastSentCache "u"
      = some (currentKey sdNoMatch)
  ∧ Msg.stockUpdate (buildContent [] sdNoMatch restocks0).1
      ∈ (fetchAndNotify botState0 "u" [] true (some sdNoMatch) restocks0).msgs :=
  (alwaysSend_c2_amended botState0 "u" [] sdNoMatch restocks0).1 (Or.inl rfl)

/-- C3: the fingerprint depends only on the transformed gear and seed
categories, so two fetch results agreeing there have equal fingerprints, and
a non-always-send cycle whose gear/seed agree with the cached fingerprint
sends nothing — changes confined to egg/cosmetics/honey never notify. -/
theorem fingerprint_c3 (sd1 sd2 : StockData)
    (hg : sd1.gearStock = sd2.gearStock) (hs : sd1.seedsStock = sd2.seedsStock) :
    currentKey sd1 = currentKey sd2
  ∧ ∀ (st : BotState) (uid : UserId) (filters : List String) (r : Restocks),
      st.lastSentCache uid = some (currentKey sd1) →
        (fetchAndNotify st uid filters false (some sd2) r).msgs = []
        ∧ (fetchAndNotify st uid filters false (some sd2) r).notified = false := by
  have hk : currentKey sd1 = currentKey sd2 := by
    unfold currentKey
    rw [hg, hs]
  refine ⟨hk, ?_⟩
  intro st uid filters r hcache
  exact fetchAndNotify_suppressed st uid filters sd2 r false
    (Or.inr (Or.inl ⟨rfl, by rw [← hk]; exact hcache⟩))

/-- Witness for C3: an egg-only change against a cached fingerprint is
silent. -/
theorem fingerprint_c3_witness :
    currentKey sdNoMatch = currentKey sdEggVariant
  ∧ ((fetchAndNotify botStateCached "u" [] false (some sdEggVariant) restocks0).msgs = []
     ∧ (fetchAndNotify botStateCached "u" [] false (some sdEggVariant) restocks0).notified
        = false) := by
  have h := fingerprint_c3 sdNoMatch sdEggVariant rfl rfl
  exact ⟨h.1, h.2 botStateCached "u" [] restocks0 rfl⟩

/-- Modelled from the spec: an instant on the 5-minute grid offset by 30
seconds — minutes a multiple of 5, seconds equal to 30 (milliseconds 0). -/
def specGridPoint (u : Nat) : Prop :=
  u % 60000 = 30000 ∧ u / 60000 % 5 = 0

/-- Modelled from the spec: `u` is the smallest instant strictly after `t`
on the offset grid (the claim's characterisation of the scheduler). -/
def specNextScheduled (t u : Nat) : Prop :=
  t < u ∧ specGridPoint u ∧ ∀ v : Nat, t < v → specGridPoint v → u ≤ v

/-- C4 as stated is false: at `t = 0` (minute 0, second 0) the smallest grid
instant strictly after `t` is `t + 30s`, but `getNextScheduledTime` skips it
and returns minute 5, second 30 (`330000` ms). -/
theorem scheduler_c4_counterexample : ¬ specNextScheduled 0 (getNextScheduledTime 0) := by
  intro h
  have h30 : getNextScheduledTime 0 ≤ 30000 :=
    h.2.2 30000 (by norm_num) (by constructor <;> norm_num)
  have hval : getNextScheduledTime 0 = 330000 := by decide
  omega

/-- C4 amended: `getNextScheduledTime t` is the 30-second-offset instant of the
next 5-minute block strictly beyond `t`'s minute (`hourStart +
(⌊min/5⌋*5+5)*60000 + 30000`); it lies on the grid and is strictly after `t`
(but may skip the `:30` grid point of `t`'s own block), and the one-shot
timer is armed for `max(next − t, 1 second)`. -/
theorem scheduler_c4_amended (t : Nat) :
    getNextScheduledTime t
        = t - t % 3600000 + (t / 60000 % 60 / 5 * 5 + 5) * 60000 + 30000
  ∧ t < getNextScheduledTime t
  ∧ specGridPoint (getNextScheduledTime t)
  ∧ runScheduleWait t = max (getNextScheduledTime t - t) 1000
  ∧ 1000 ≤ runScheduleWait t := by
  have hc := getNextScheduledTime_closed t
  have h10 : t / 60000 / 60 = t / 3600000 := by
    rw [Nat.div_div_eq_div_mul]
  have h1 := Nat.div_add_mod t 60000
  have h2 := Nat.div_add_mod t 3600000
  have h3 := Nat.div_add_mod (t / 60000) 60
  have h4 := Nat.div_add_mod (t / 60000 % 60) 5
  have h5 : t % 60000 < 60000 := Nat.mod_lt _ (by norm_num)
  have h6 : t / 60000 % 60 < 60 := Nat.mod_lt _ (by norm_num)
  have h7 : t % 3600000 < 3600000 := Nat.mod_lt _ (by norm_num)
  have h8 : t / 60000 % 60 % 5 < 5 := Nat.mod_lt _ (by norm_num)
  refine ⟨hc, ?_, ⟨?_, ?_⟩, rfl, le_max_right _ _⟩ <;> rw [hc] <;> omega

/-- C5: with non-empty filters, a gear/seed item appears in the rendered
content exactly when its name contains a filter substring; the egg,
cosmetics and honey items appear (unfiltered) exactly when some gear or seed
item matched; and the matched flag is exactly "some gear or seed item
matches". -/
theorem filtering_c5 (filters : List String) (sd : StockData) (r : Restocks)
    (hf : filters ≠ []) :
    (∀ i : Item, i ∈ sectionItems (buildContent filters sd r).1 gearLabel ↔
        i ∈ sd.gearStock ∧ matchesFilters filters i.name = true)
  ∧ (∀ i : Item, i ∈ sectionItems (buildContent filters sd r).1 seedLabel ↔
        i ∈ sd.seedsStock ∧ matchesFilters filters i.name = true)
  ∧ (∀ i : Item, i ∈ sectionItems (buildContent filters sd r).1 eggLabel ↔
        i ∈ sd.eggStock ∧ (buildContent filters sd r).2 = true)
  ∧ (∀ i : Item, i ∈ sectionItems (buildContent filters sd r).1 cosmeticsLabel ↔
        i ∈ sd.cosmeticsStock ∧ (buildContent filters sd r).2 = true)
  ∧ (∀ i : Item, i ∈ sectionItems (buildContent filters sd r).1 honeyLabel ↔
        i ∈ sd.honeyStock ∧ (buildContent filters sd r).2 = true)
  ∧ ((buildContent filters sd r).2 = true ↔
        ∃ i : Item, (i ∈ sd.gearStock ∨ i ∈ sd.seedsStock)
          ∧ matchesFilters filters i.name = true) := by
  have hfe := isEmpty_false_of_ne filters hf
  refine ⟨?_, ?_, ?_, ?_, ?_, buildContent_snd_iff filters sd r hfe⟩ <;> intro i <;>
    rw [mem_buildContent_fst filters sd r hfe] <;>
    simp [gearLabel, seedLabel, eggLabel, cosmeticsLabel, honeyLabel, List.mem_filter] <;>
    tauto

/-- Witness for C5: the "car" filter keeps the Carrot seed, and the matched
flag pulls the egg category in unfiltered. -/
theorem filtering_c5_witness :
    ((["car"] : List String) ≠ [])
  ∧ ((⟨"Carrot", 3⟩ : Item) ∈ sectionItems (buildContent ["car"] sdEggVariant restocks0).1 seedLabel
      ↔ (⟨"Carrot", 3⟩ : Item) ∈ sdEggVariant.seedsStock
        ∧ matchesFilters ["car"] (Item.name ⟨"Carrot", 3⟩) = true)
  ∧ ((⟨"Common Egg", 7⟩ : Item) ∈ sectionItems (buildContent ["car"] sdEggVariant restocks0).1 eggLabel
      ↔ (⟨"Common Egg", 7⟩ : Item) ∈ sdEggVariant.eggStock
        ∧ (buildContent ["car"] sdEggVariant restocks0).2 = true) := by
  have h := filtering_c5 ["car"] sdEggVariant restocks0 (by decide)
  exact ⟨by decide, h.2.1 ⟨"Carrot", 3⟩, h.2.2.1 ⟨"Common Egg", 7⟩⟩

/-- C6: when the initial fetch of the start command throws, the user gets the
start banner followed by the fetch-error message, and the state is exactly
the pre-command state — no session exists and nothing else changed. -/
theorem start_failure_c6 (st : BotState) (uid : UserId) (filters : List String)
    (r : Restocks) (now : Nat) (hn : st.activeSessions uid = none) :
    gagstockExecute st uid "on" filters none r now
      = (st, [Msg.startMsg filters, Msg.fetchError]) := by
  have hset : setUser st.activeSessions uid none = st.activeSessions := by
    funext u
    by_cases hu : u = uid
    · simp [setUser, hu, hn]
    · simp [setUser, hu]
  simp [gagstockExecute, fetchAndNotify, hset, hn]

/-- Witness for C6. -/
theorem start_failure_c6_witness :
    botState0.activeSessions "u" = none
  ∧ gagstockExecute botState0 "u" "on" [] none restocks0 7
      = (botState0, [Msg.startMsg [], Msg.fetchError]) :=
  ⟨rfl, start_failure_c6 botState0 "u" [] restocks0 7 rfl⟩

/-- C7: a start command while a session is active replies "already active"
and changes nothing — the single stored session (filters, timestamps, timer)
is exactly as before. -/
theorem duplicate_start_c7 (st : BotState) (uid : UserId) (s : Session)
    (filters : List String) (fetch : Option StockData) (r : Restocks) (now : Nat)
    (hs : st.activeSessions uid = some s) :
    gagstockExecute st uid "on" filters fetch r now = (st, [Msg.alreadyActive])
  ∧ (gagstockExecute st uid "on" filters fetch r now).1.activeSessions uid = some s := by
  have h : gagstockExecute st uid "on" filters fetch r now = (st, [Msg.alreadyActive]) := by
    simp [gagstockExecute, hs]
  exact ⟨h, by rw [h]; exact hs⟩

/-- Witness for C7. -/
theorem duplicate_start_c7_witness :
    botStateActive.activeSessions "u" = some sessionW
  ∧ gagstockExecute botStateActive "u" "on" [] none restocks0 7
      = (botStateActive, [Msg.alreadyActive]) :=
  ⟨rfl, (duplicate_start_c7 botStateActive "u" sessionW [] none restocks0 7 rfl).1⟩

/-- C8: `gagstock off` without a session replies "no active session" and
mutates nothing, and stop is idempotent — after any stop, a second stop is
exactly that no-op reply. -/
theorem stop_idempotent_c8 (st : BotState) (uid : UserId) (filters : List String)
    (fetch : Option StockData) (r : Restocks) (now : Nat) :
    (st.activeSessions uid = none →
      gagstockExecute st uid "off" filters fetch r now = (st, [Msg.noSession]))
  ∧ gagstockExecute (gagstockExecute st uid "off" filters fetch r now).1 uid "off"
        filters fetch r now
      = ((gagstockExecute st uid "off" filters fetch r now).1, [Msg.noSession]) := by
  refine ⟨fun hn => execute_off_none st uid filters fetch r now hn, ?_⟩
  exact execute_off_none _ uid filters fetch r now
    (execute_off_clears st uid filters fetch r now)

/-- Witness for C8. -/
theorem stop_idempotent_c8_witness :
    botState0.activeSessions "u" = none
  ∧ gagstockExecute botState0 "u" "off" [] none restocks0 7
      = (botState0, [Msg.noSession]) :=
  ⟨rfl, (stop_idempotent_c8 botState0 "u" [] none restocks0 7).1 rfl⟩

/-- C9: `formatValue` renders quantities below 1000 raw, `[1000, 10^6)` in
thousands with one decimal and a `K` suffix, `≥ 10^6` in millions with one
decimal and an `M` suffix; `500 ↦ "x500"`, `1500 ↦ "x1.5K"`,
`2300000 ↦ "x2.3M"`. -/
theorem formatValue_c9 (v : Nat) :
    (v < 1000 → formatValue v = "x" ++ toString v)
  ∧ (1000 ≤ v → v < 1000000 →
      formatValue v = "x" ++ oneDecimal (toFixed1 v 1000) ++ "K")
  ∧ (1000000 ≤ v → formatValue v = "x" ++ oneDecimal (toFixed1 v 1000000) ++ "M")
  ∧ formatValue 500 = "x500"
  ∧ formatValue 1500 = "x1.5K"
  ∧ formatValue 2300000 = "x2.3M" := by
  refine ⟨?_, ?_, ?_, by decide, by decide, by decide⟩
  · intro h
    unfold formatValue
    rw [if_neg (by omega), if_neg (by omega)]
  · intro h1 h2
    unfold formatValue
    rw [if_neg (by omega), if_pos (by omega)]
  · intro h
    unfold formatValue
    rw [if_pos (by omega)]

/-- Witness for C9. -/
theorem formatValue_c9_witness :
    (1000 ≤ 1500 ∧ 1500 < 1000000)
  ∧ formatValue 1500 = "x" ++ oneDecimal (toFixed1 1500 1000) ++ "K" :=
  ⟨⟨by norm_num, by norm_num⟩, (formatValue_c9 1500).2.1 (by norm_num) (by norm_num)⟩

/-- C10 as stated is false in its "alwaysSend ignores the flag" part: with
do-not-disturb on, an always-send cycle still notifies, but the divine-items
alert is suppressed, so the cycle's output does depend on the flag. -/
theorem dnd_c10_counterexample :
    (fetchAndNotify botStateDnd "u" [] true (some sdDivine) restocks0).notified = true
  ∧ Msg.divineAlert [⟨"Beanstalk", 1⟩]
      ∈ (fetchAndNotify botState0 "u" [] true (some sdDivine) restocks0).msgs
  ∧ Msg.divineAlert [⟨"Beanstalk", 1⟩]
      ∉ (fetchAndNotify botStateDnd "u" [] true (some sdDivine) restocks0).msgs
  ∧ (fetchAndNotify botStateDnd "u" [] true (some sdDivine) restocks0).msgs
      ≠ (fetchAndNotify botState0 "u" [] true (some sdDivine) restocks0).msgs := by
  refine ⟨rfl, ?_, ?_, ?_⟩ <;> decide

/-- C10 amended: with do-not-disturb enabled, every `alwaysSend = false`
cycle short-circuits before the fingerprint comparison — no message, no state
change, "not sent"; an `alwaysSend = true` cycle is not blocked (the
notification is still sent) but the divine-items alert remains suppressed. -/
theorem dnd_c10_amended (st : BotState) (uid : UserId) (filters : List String)
    (sd : StockData) (r : Restocks) (hd : st.userDoNotDisturb uid = true) :
    fetchAndNotify st uid filters false (some sd) r = ⟨st, [], false⟩
  ∧ ((filters = [] ∨ (buildContent filters sd r).2 = true) →
      (fetchAndNotify st uid filters true (some sd) r).notified = true
      ∧ ∀ l : List Item,
          Msg.divineAlert l ∉ (fetchAndNotify st uid filters true (some sd) r).msgs) := by
  constructor
  · simp [fetchAndNotify, hd]
  · intro hm
    have h2 : ¬(filters ≠ [] ∧ (buildContent filters sd r).2 = false) := by
      rintro ⟨hf, hmf⟩
      rcases hm with h | h
      · exact hf h
      · rw [h] at hmf; simp at hmf
    constructor
    · exact (fetchAndNotify_send_shape st uid filters sd r true
        (by rintro ⟨-, hc⟩; simp at hc) (by rintro ⟨hc, -⟩; simp at hc) h2).1
    · intro l
      have hmsgs : (fetchAndNotify st uid filters true (some sd) r).msgs
          = [Msg.stockUpdate (buildContent filters sd r).1, Msg.signatureImage] := by
        simp [fetchAndNotify, hd, h2]
      rw [hmsgs]
      simp

/-- Witness for the amended C10. -/
theorem dnd_c10_amended_witness :
    botStateDnd.userDoNotDisturb "u" = true
  ∧ fetchAndNotify botStateDnd "u" [] false (some sdDivine) restocks0
      = ⟨botStateDnd, [], false⟩
  ∧ (fetchAndNotify botStateDnd "u" [] true (some sdDivine) restocks0).notified = true := by
  have h := dnd_c10_amended botStateDnd "u" [] sdDivine restocks0 rfl
  exact ⟨rfl, h.1, (h.2 (Or.inl rfl)).1⟩

end GagBot
